import Mathlib

/-!
Verification development for the Benzinga websocket-to-batch sink.

Shallow embedding of the repository's code:
 * `src/app/file_writer.py` (`FileWindowedWriter`): windowed, size-bounded
   NDJSON batch writer with `uploading.marker` sentinels,
 * `src/app/ws_client.py` (`run_stream`, `_consume_messages`): stream consumer
   with reconnect backoff and per-unit error skipping,
 * `src/app/models.py` (`_extract_symbol`, `extract_all_outputs`),
 * `src/app/bedrock_summarizer.py` (`BedrockSummarizer._invoke_with_retry`).

Conventions of the embedding:
 * A `datetime` (UTC-aware) is a `PyTime`: `base` is the absolute hour index
   (hours since the epoch, which determines year/month/day/hour uniquely),
   plus minute/second/microsecond fields.  All `datetime` arithmetic and
   comparison in the source goes through absolute microseconds (`toMicros`).
 * Filesystem effects are recorded as an event trace (`Ev`), and fallible
   effects (file close, marker create/remove) are driven by an `FsEnv`
   oracle saying whether each such call succeeds; an exception that the
   source catches is an event, one that propagates is an `Option PyErr`.
 * Python integer floor division `//` is `Int.fdiv`; `datetime.replace`
   range-checks its minute argument.
-/

/-- A UTC-aware `datetime` value, split as the source uses it:
everything down to the hour (as an absolute epoch-hour index), then
minute, second and microsecond. -/
structure PyTime where
  base : Int
  minute : Nat
  second : Nat
  micro : Nat
deriving DecidableEq

/-- Absolute time in microseconds; `datetime` comparison and subtraction
in the source are comparison and subtraction of this value. -/
def PyTime.toMicros (t : PyTime) : Int :=
  ((t.base * 60 + (t.minute : Int)) * 60 + (t.second : Int)) * 1000000 + (t.micro : Int)

/-- Rebuild a `datetime` from absolute microseconds (used for
`start + timedelta(...)`). -/
def PyTime.fromMicros (x : Int) : PyTime :=
  let h := x.fdiv 3600000000
  let r := (x - h * 3600000000).toNat
  { base := h, minute := r / 60000000, second := r % 60000000 / 1000000, micro := r % 1000000 }

/-- `t + timedelta(microseconds = d)`. -/
def PyTime.addMicros (t : PyTime) (d : Int) : PyTime :=
  PyTime.fromMicros (t.toMicros + d)

deriving instance DecidableEq for Except

/-- Python exceptions that the embedded code can raise. -/
inductive PyErr where
  | zeroDivisionError
  | valueError
  | attributeError
  | typeError
deriving DecidableEq

/-- `FileWindowedWriter._floor_window`:
`minute = (when.minute // self.window_minutes) * self.window_minutes;`
`when.replace(minute=minute, second=0, microsecond=0, tzinfo=utc)`.
`//` with `window_minutes = 0` raises `ZeroDivisionError`; `replace`
raises `ValueError` if the computed minute is outside `0..59`. -/
def floor_window (w : Int) (t : PyTime) : Except PyErr PyTime :=
  if w = 0 then .error .zeroDivisionError
  else
    let m : Int := ((t.minute : Int).fdiv w) * w
    if 0 ≤ m ∧ m < 60 then
      .ok { base := t.base, minute := m.toNat, second := 0, micro := 0 }
    else .error .valueError

/-- `FileWindowedWriter._window_bounds`:
`start = floor; end = start + timedelta(minutes=w) - timedelta(seconds=1)`. -/
def window_bounds (w : Int) (t : PyTime) : Except PyErr (PyTime × PyTime) :=
  match floor_window w t with
  | .error e => .error e
  | .ok start => .ok (start, start.addMicros (w * 60000000 - 1000000))

/-- The partition path computed by `FileWindowedWriter._prefix_for_window`:
`ingest_dt=%Y/%m/%d/hour=%H` of `start` plus
`part=<start %Y%m%d_%H%M>-<end %Y%m%d_%H%M>`.  The strftime output is
determined by, and determines, the epoch-hour index and minute of `start`
and of `end` (the Gregorian rendering of an epoch hour is injective), so
the path is embedded as that quadruple. -/
structure PartPath where
  startBase : Int
  startMinute : Nat
  endBase : Int
  endMinute : Nat
deriving DecidableEq

def prefix_for_window (start stop : PyTime) : PartPath :=
  { startBase := start.base, startMinute := start.minute
    endBase := stop.base, endMinute := stop.minute }

/-- An output object: its partition path and the sequence number baked into
its `<hostname>-seq=NNNNNN.ndjson` name (the hostname is constant for one
writer, so path equality is determined by this pair). -/
structure ObjPath where
  part : PartPath
  seq : Nat
deriving DecidableEq

/-- Observable filesystem events of the writer. -/
inductive Ev where
  | fileClosed (p : ObjPath)
  | closeFailed (p : ObjPath)
  | markerRemoved (pp : PartPath)
  | markerRemoveFailed (pp : PartPath)
  | markerCreated (pp : PartPath)
  | markerCreateFailed (pp : PartPath)
  | fileOpened (p : ObjPath)
  | wrote (p : ObjPath) (nbytes : Nat)
deriving DecidableEq

/-- Success/failure oracle for the fallible filesystem calls made during one
writer operation. -/
structure FsEnv where
  closeOk : Bool
  markerRemoveOk : Bool
  markerCreateOk : Bool
deriving DecidableEq

/-- State of a `FileWindowedWriter` plus the marker files on disk.
`fileObj` models `self._file`/`self._file_path` (both are set and cleared
together); `markers` is the set of partition directories currently holding
an `uploading.marker` file. -/
structure WriterState where
  windowMinutes : Int
  maxObjectBytes : Nat
  useMarker : Bool
  seqCounter : Nat
  curStart : Option PyTime
  curEnd : Option PyTime
  fileObj : Option ObjPath
  bytesWritten : Nat
  markers : List PartPath
deriving DecidableEq

/-- The field initialisation done by `FileWindowedWriter.__init__`
(no marker file exists yet for a fresh base directory). -/
def init_state (w : Int) (maxBytes : Nat) (useMarker : Bool) : WriterState :=
  { windowMinutes := w, maxObjectBytes := maxBytes, useMarker := useMarker
    seqCounter := 0, curStart := none, curEnd := none, fileObj := none
    bytesWritten := 0, markers := [] }

/-- `FileWindowedWriter.__init__`: stores the parameters and creates the
base directory; it performs no validation of `window_minutes`, so it
cannot fail on the value of `window_minutes`. -/
def init_writer (w : Int) (maxBytes : Nat) (useMarker : Bool) :
    Except PyErr WriterState :=
  .ok (init_state w maxBytes useMarker)

/-- `FileWindowedWriter._should_rotate`. -/
def should_rotate (s : WriterState) (when : PyTime) : Bool :=
  match s.curEnd with
  | none => true
  | some e =>
    if e.toMicros < when.toMicros then true
    else if s.maxObjectBytes ≤ s.bytesWritten then true
    else false

/-- `FileWindowedWriter._finalize_current`.  If no file is open it returns
immediately.  Otherwise it flushes and closes the file (an exception there
is caught and logged), and then — in a `finally:` block, hence in every
case — removes the marker file if `use_marker` is set, both window bounds
are set and the marker exists (a removal failure is caught and logged),
and clears `_file`, `_file_path` and `_bytes_written`.
`_current_window_start`/`_current_window_end` are NOT cleared. -/
def finalize_current (env : FsEnv) (s : WriterState) : WriterState × List Ev :=
  match s.fileObj with
  | none => (s, [])
  | some p =>
    let closeEvs := if env.closeOk then [Ev.fileClosed p] else [Ev.closeFailed p]
    let step :=
      if s.useMarker then
        match s.curStart, s.curEnd with
        | some st, some en =>
          let pp := prefix_for_window st en
          if pp ∈ s.markers then
            if env.markerRemoveOk then (s.markers.erase pp, [Ev.markerRemoved pp])
            else (s.markers, [Ev.markerRemoveFailed pp])
          else (s.markers, [])
        | _, _ => (s.markers, [])
      else (s.markers, [])
    ({ s with fileObj := none, bytesWritten := 0, markers := step.1 },
      closeEvs ++ step.2)

/-- `FileWindowedWriter._start_new_window`: compute the window bounds and
partition path from `when`, bump the process-lifetime sequence counter,
create the marker first (a creation failure is caught and logged), then
open the object file for append and reset `bytes_written` to 0.
Propagates the exception of `_window_bounds` (e.g. `ZeroDivisionError`
when `window_minutes = 0`). -/
def start_new_window (env : FsEnv) (when : PyTime) (s : WriterState) :
    Except PyErr (WriterState × ObjPath × List Ev) :=
  match window_bounds s.windowMinutes when with
  | .error e => .error e
  | .ok (start, stop) =>
    let pp := prefix_for_window start stop
    let seq1 := s.seqCounter + 1
    let path : ObjPath := { part := pp, seq := seq1 }
    let step :=
      if s.useMarker then
        if env.markerCreateOk then
          ((if pp ∈ s.markers then s.markers else pp :: s.markers),
            [Ev.markerCreated pp])
        else (s.markers, [Ev.markerCreateFailed pp])
      else (s.markers, [])
    .ok ({ s with
            seqCounter := seq1
            curStart := some start
            curEnd := some stop
            fileObj := some path
            markers := step.1
            bytesWritten := 0 },
          path, step.2 ++ [Ev.fileOpened path])

/-- `FileWindowedWriter.write_line`.  `now` is the wall-clock time computed
at call time.  If `_should_rotate(now)`, finalize then start a new window;
then `self._file.write(data); self._file.flush(); self._bytes_written += len(data)`.
In the non-rotating branch, if `self._file` is `None` the write is an
`AttributeError` on `None`.  The result carries the state reached, the
event trace, and the exception propagated to the caller, if any. -/
def write_line (env : FsEnv) (now : PyTime) (nbytes : Nat) (s : WriterState) :
    WriterState × List Ev × Option PyErr :=
  if should_rotate s now then
    let fin := finalize_current env s
    match start_new_window env now fin.1 with
    | .error e => (fin.1, fin.2, some e)
    | .ok (s2, path, evs2) =>
      ({ s2 with bytesWritten := s2.bytesWritten + nbytes },
        fin.2 ++ evs2 ++ [Ev.wrote path nbytes], none)
  else
    match s.fileObj with
    | none => (s, [], some .attributeError)
    | some p =>
      ({ s with bytesWritten := s.bytesWritten + nbytes },
        [Ev.wrote p nbytes], none)

/-- `FileWindowedWriter.close`: just `self._finalize_current()`. -/
def close_writer (env : FsEnv) (s : WriterState) : WriterState × List Ev :=
  finalize_current env s

/-! ## `src/app/models.py`: record extraction -/

/-- A Python value found under the `'symbol'` key (or attribute) of a
security entry: either an actual `str`, or some non-string value (which
`isinstance(symbol, str)` rejects whether truthy or falsy). -/
inductive PyStrVal where
  | s (v : String)
  | nonString
deriving DecidableEq

/-- One entry of `content.securities` (typed `List[Any]` in the source):
a dict (with or without a `'symbol'` key), a plain string, an object with
a `symbol` attribute, or anything else. -/
inductive SecEntry where
  | dict (symbol : Option PyStrVal)
  | str (v : String)
  | objWithSymbol (symbol : Option PyStrVal)
  | other
deriving DecidableEq

/-- `symbol and isinstance(symbol, str)` followed by `return symbol`:
yields the string when the value is a non-empty `str` (an empty string is
falsy), otherwise falls through to `return None`. -/
def symbol_of_val : Option PyStrVal → Option String
  | some (.s v) => if v = "" then none else some v
  | _ => none

/-- `models._extract_symbol`.  `str.strip()` is embedded as `String.trim`
(the securities payloads are ASCII tickers). -/
def extract_symbol : SecEntry → Option String
  | .dict symbol => symbol_of_val symbol
  | .str v => if v.trim = "" then none else some v.trim
  | .objWithSymbol symbol => symbol_of_val symbol
  | .other => none

/-- `models.Content` restricted to the fields `extract_all_outputs` reads
(the pydantic validators have already normalised the list fields). -/
structure Content where
  title : Option String
  body : Option String
  teaser : Option String
  authors : List String
  url : Option String
  channels : List String
  securities : List SecEntry
  createdAt : Option PyTime
  updatedAt : Option PyTime
deriving DecidableEq

/-- `models.DataMessage`. -/
structure DataMessage where
  action : Option String
  id : Int
  timestamp : PyTime
  content : Content
deriving DecidableEq

/-- `models.StreamMessage`. -/
structure StreamMessage where
  apiVersion : Option String
  kind : Option String
  data : DataMessage
deriving DecidableEq

/-- `models.OutputRecord`. -/
structure OutputRecord where
  timestamp : Int
  ticker : String
  newsId : Int
  action : String
  title : Option String
  content : Option String
  authors : List String
  url : Option String
  channels : List String
  createdAt : Option PyTime
  updatedAt : Option PyTime
deriving DecidableEq

/-- `int(msg.data.timestamp.timestamp() * 1000)`: epoch milliseconds of
the record timestamp (the float detour of `datetime.timestamp()` is
embedded as exact integer arithmetic). -/
def epoch_millis (t : PyTime) : Int :=
  t.toMicros.fdiv 1000

/-- `models.extract_all_outputs(msg, summary)`: extract the valid tickers
from `msg.data.content.securities` and build one `OutputRecord` per
ticker, every one carrying the same `summary` as its `content` field.
(The source's early `return []` on an empty ticker list coincides with
mapping over the empty list; `securities or []` coincides with the
already-normalised list.) -/
def extract_all_outputs (msg : StreamMessage) (summary : String) :
    List OutputRecord :=
  let tickers := msg.data.content.securities.filterMap extract_symbol
  tickers.map (fun ticker =>
    { timestamp := epoch_millis msg.data.timestamp
      ticker := ticker
      newsId := msg.data.id
      action := msg.data.action.getD "Created"
      title := msg.data.content.title
      content := some summary
      authors := msg.data.content.authors
      url := msg.data.content.url
      channels := msg.data.content.channels
      createdAt := msg.data.content.createdAt
      updatedAt := msg.data.content.updatedAt })

/-! ## `src/app/ws_client.py`: the consumer read loop

`_consume_messages` runs one loop-body iteration per inbound frame
(`async for raw in conn`): JSON decode (failure: log + `continue`), schema
validation (failure: log + `continue`), then
`records = extract_all_outputs(msg, summarizer, settings.summary_max_words)`
— three positional arguments to the two-parameter
`models.extract_all_outputs`, so on every frame that reaches it this call
raises `TypeError`, and it sits outside every `try/except` of the body, so
the exception propagates out of the loop (to `run_stream`, which treats it
as a connection error).  The empty-records guard and the per-record guarded
write loop that follow the call in the source are therefore unreachable in
the shipped program; they are embedded separately below
(`ignore_or_write`, `write_records`) since the spec describes them. -/

/-- Per-frame behaviour of the steps of `_consume_messages` that can go
either way: whether `orjson.loads` and `StreamMessage.model_validate`
succeed for this frame. -/
structure FrameEnv where
  decodeOk : Bool
  validateOk : Bool
deriving DecidableEq

/-- Observable per-unit outcomes of the read loop. -/
inductive CEv where
  | skippedDecode
  | skippedValidation
  | ignoredEmpty
  | wroteRecord (r : OutputRecord)
  | writeFailed (r : OutputRecord)
deriving DecidableEq

/-- The per-record write loop of `_consume_messages` (source lines 72–78):
each record's `writer.write_line` call is wrapped in its own
`try/except` that logs and `continue`s, so a record whose write raises
(second component `true`) is dropped and the loop proceeds to the next
record.  Unreachable in the shipped program (see `process_frame`). -/
def write_records (records : List (OutputRecord × Bool)) : List CEv :=
  records.map (fun rb => if rb.2 then CEv.writeFailed rb.1 else CEv.wroteRecord rb.1)

/-- The empty-records guard plus write loop (source lines 64–78):
`if not records: log("ignored ..."); continue`, else write each record.
Unreachable in the shipped program (see `process_frame`). -/
def ignore_or_write (records : List (OutputRecord × Bool)) : List CEv :=
  if records = [] then [CEv.ignoredEmpty] else write_records records

/-- One iteration of the `async for` body of `_consume_messages`, as
shipped: decode failure → log + `continue`; validation failure → log +
`continue`; otherwise the extraction call at line 63 raises `TypeError`
(three positional arguments to the two-parameter `extract_all_outputs`),
unguarded, and the body propagates it. -/
def process_frame (f : FrameEnv) : List CEv × Option PyErr :=
  if f.decodeOk = false then ([CEv.skippedDecode], none)
  else if f.validateOk = false then ([CEv.skippedValidation], none)
  else ([], some PyErr.typeError)

/-- The read loop over a finite frame sequence: iterate the body until a
frame's processing propagates an exception, which ends the loop (frames
after it are never read). -/
def consume_messages : List FrameEnv → List CEv × Option PyErr
  | [] => ([], none)
  | f :: rest =>
    match process_frame f with
    | (evs, some e) => (evs, some e)
    | (evs, none) =>
      let r := consume_messages rest
      (evs ++ r.1, r.2)

/-! ## `src/app/ws_client.py`: reconnect backoff (`run_stream`)

Delays are embedded as rationals.  On a connection-level error the source
computes `jitter = random.uniform(0, backoff)` and
`delay = min(reconnect_max_delay, backoff + jitter)`, waits, then sets
`backoff = min(reconnect_max_delay, max(reconnect_base_delay, backoff * 2))`. -/

def reconnect_delay (maxDelay backoff jitter : ℚ) : ℚ :=
  min maxDelay (backoff + jitter)

def reconnect_next_backoff (baseDelay maxDelay backoff : ℚ) : ℚ :=
  min maxDelay (max baseDelay (backoff * 2))

/-! ## `src/app/bedrock_summarizer.py`: `_invoke_with_retry` -/

/-- Outcome of one `_invoke_bedrock_with_model` call: a normal return
(`None` for an empty summary), a raised `botocore` `ClientError` with its
error code and message, or any other raised exception. -/
inductive BInvoke where
  | ok (summary : Option String)
  | clientError (code msg : String)
  | exn
deriving DecidableEq

/-- What `_invoke_with_retry` can raise or return: either a value
(`Option String`) or a propagated exception. -/
inductive BOutcome where
  | ret (summary : Option String)
  | raisedClientError (code msg : String)
  | raisedExn
deriving DecidableEq

/-- The behaviour of the Bedrock endpoint during one `_invoke_with_retry`
call: the result of the primary-model invocation at each attempt index,
and the result of the (at most one) fallback-model invocation. -/
structure BedrockEnv where
  primary : Nat → BInvoke
  fallback : BInvoke

/-- `"needle" in haystack` for strings. -/
def str_contains (haystack needle : String) : Bool :=
  decide (List.IsInfix needle.toList haystack.toList)

/-- `is_retryable`: the error code is one of the three retryable classes
(the additional `"ValidationException" not in error_code` conjunct of the
source). -/
def is_retryable_code (code : String) : Bool :=
  (code = "ThrottlingException" || code = "ServiceUnavailableException"
      || code = "TooManyRequestsException")
    && !(str_contains code "ValidationException")

/-- The `return self._invoke_bedrock_with_model(..., fallback_model_id)`
inside the `except ClientError` handler: a raised exception there is not
caught by anything in `_invoke_with_retry` and propagates. -/
def fallback_result (env : BedrockEnv) : BOutcome × List Nat :=
  match env.fallback with
  | .ok o => (.ret o, [])
  | .clientError c m => (.raisedClientError c m, [])
  | .exn => (.raisedExn, [])

/-- The `for attempt in range(self.max_retries)` loop of
`_invoke_with_retry`; `fuel` is the number of remaining iterations
(`attempt + fuel = max_retries` at each entry).  The second component
collects the `time.sleep` durations (`2 ** attempt`).  Falling out of the
loop returns `None`. -/
def invoke_attempts (env : BedrockEnv) (maxRetries : Nat) :
    Nat → Nat → BOutcome × List Nat
  | _, 0 => (.ret none, [])
  | attempt, fuel + 1 =>
    match env.primary attempt with
    | .ok o =>
      -- `if summary: return summary` (an empty result falls through to the
      -- next iteration without sleeping)
      if o.isSome then (.ret o, [])
      else invoke_attempts env maxRetries (attempt + 1) fuel
    | .clientError code msg =>
      if !(is_retryable_code code) || attempt = maxRetries - 1 then
        if code = "ValidationException" && str_contains msg "on-demand throughput" then
          fallback_result env
        else (.ret none, [])
      else
        let rest := invoke_attempts env maxRetries (attempt + 1) fuel
        (rest.1, 2 ^ attempt :: rest.2)
    | .exn =>
      if attempt = maxRetries - 1 then (.ret none, [])
      else
        let rest := invoke_attempts env maxRetries (attempt + 1) fuel
        (rest.1, 2 ^ attempt :: rest.2)

/-- `BedrockSummarizer._invoke_with_retry` (with `max_retries` from the
constructor): its returned/raised outcome and its sleep trace. -/
def invoke_with_retry (env : BedrockEnv) (maxRetries : Nat) : BOutcome × List Nat :=
  invoke_attempts env maxRetries 0 maxRetries

/-! ## Concrete writer executions used by the evaluation theorems -/

/-- All filesystem calls succeed. -/
def envAllOk : FsEnv := { closeOk := true, markerRemoveOk := true, markerCreateOk := true }

/-- `flush`/`close` of the open object raises; marker calls succeed. -/
def envCloseFail : FsEnv := { closeOk := false, markerRemoveOk := true, markerCreateOk := true }

/-- Marker creation raises; everything else succeeds. -/
def envMarkerCreateFail : FsEnv := { closeOk := true, markerRemoveOk := true, markerCreateOk := false }

/-- A writer (window 30 min, generous size bound, markers on) after one
`write_line` of 7 bytes at minute 5 of hour 10: one object is open in the
window `10:00–10:29:59`. -/
def exWriterA : WriterState :=
  (write_line envAllOk ⟨10, 5, 0, 0⟩ 7 (init_state 30 1000000 true)).1

/-- `exWriterA` after `close()`. -/
def exWriterAClosed : WriterState := (close_writer envAllOk exWriterA).1

/-- C1: For every call to FileWindowedWriter.write_line, the sink computes the
current wall-clock time at call time and, if no output object is open, or that
time exceeds the open Window's inclusive end, or bytes_written has reached
max_object_bytes, it finalizes the currently open object and opens a new one
before writing the line; in particular, a write_line call made when no object
is open (including the first call after close()) opens a new object before
writing.  REFUTED at the failing input: after `close()`, `_finalize_current`
clears `_file` but not `_current_window_end`, so a `write_line` at 10:20 —
inside the old window `10:00–10:29:59`, with no object open — does not rotate
and instead raises `AttributeError` on `self._file.write`; no object is
opened, nothing is written.  (The very first call on a fresh writer does
rotate and write, as the last conjunct shows.) -/
theorem write_line_after_close_raises :
    write_line envAllOk ⟨10, 20, 0, 0⟩ 7 exWriterAClosed
        = (exWriterAClosed, [], some PyErr.attributeError)
      ∧ exWriterAClosed.fileObj = none
      ∧ exWriterAClosed.curEnd = some ⟨10, 29, 59, 0⟩
      ∧ (write_line envAllOk ⟨10, 5, 0, 0⟩ 7 (init_state 30 1000000 true)).2.2 = none := by
  decide

/-- C2: During finalization of an open object, the marker file is removed only
after the object has been durably completed (flushed and closed); if the
flush/close of the object fails, the marker is not removed.  REFUTED at the
failing input: finalizing `exWriterA` (one open object, marker present) with a
failing `flush`/`close` still removes the marker — the `finally:` block of
`_finalize_current` deletes it even though the close raised — so an external
observer sees the marker absent while the object is incomplete. -/
theorem finalize_close_failure_still_removes_marker :
    (finalize_current envCloseFail exWriterA).2
        = [Ev.closeFailed ⟨⟨10, 0, 10, 29⟩, 1⟩, Ev.markerRemoved ⟨10, 0, 10, 29⟩]
      ∧ exWriterA.markers = [⟨10, 0, 10, 29⟩]
      ∧ (finalize_current envCloseFail exWriterA).1.markers = [] := by
  decide

/-- C3 counterexample: with `window_minutes = 45` and `max_object_bytes = 10`,
a 10-byte write at 10:50 (window `10:45–11:29:59`) followed by a write at
11:10 — still inside that window, with `bytes_written = 10 ≥ 10` — triggers a
size rotation whose recomputed floor is 11:00, so the second object lands in a
DIFFERENT partition path (`part=...1045-...1129` vs `part=...1100-...1144`),
refuting "two objects at the same partition path".  (The sequence numbers are
still consecutive: 1 then 2.) -/
theorem size_rotation_path_differs_w45 :
    (write_line envAllOk ⟨10, 50, 0, 0⟩ 10 (init_state 45 10 true)).2.2 = none
      ∧ (write_line envAllOk ⟨10, 50, 0, 0⟩ 10 (init_state 45 10 true)).1.curEnd
          = some ⟨11, 29, 59, 0⟩
      ∧ (write_line envAllOk ⟨10, 50, 0, 0⟩ 10 (init_state 45 10 true)).1.bytesWritten = 10
      ∧ (⟨11, 10, 0, 0⟩ : PyTime).toMicros ≤ (⟨11, 29, 59, 0⟩ : PyTime).toMicros
      ∧ (write_line envAllOk ⟨11, 10, 0, 0⟩ 5
            (write_line envAllOk ⟨10, 50, 0, 0⟩ 10 (init_state 45 10 true)).1).1.fileObj
          = some ⟨⟨11, 0, 11, 44⟩, 2⟩
      ∧ (write_line envAllOk ⟨10, 50, 0, 0⟩ 10 (init_state 45 10 true)).1.fileObj
          = some ⟨⟨10, 45, 11, 29⟩, 1⟩
      ∧ (⟨10, 45, 11, 29⟩ : PartPath) ≠ ⟨11, 0, 11, 44⟩ := by
  decide

/-- C7 counterexample: constructing a writer with `window_minutes = 0` does
NOT fail at construction — `__init__` performs no validation — and the error
is instead deferred to the first `write_line` call, which raises
`ZeroDivisionError` from `_floor_window`. -/
theorem init_accepts_zero_window :
    init_writer 0 512000000 true = .ok (init_state 0 512000000 true)
      ∧ (write_line envAllOk ⟨10, 5, 0, 0⟩ 3 (init_state 0 512000000 true)).2.2
          = some PyErr.zeroDivisionError :=
  ⟨rfl, by decide⟩

/-- C4 counterexample: with `max_delay = 60`, `backoff = 50` and jitter
`20 ∈ [0, backoff]`, the code computes `min(60, 50 + 20) = 60`, not
`min(60, 50) + 20 = 70` as the claim states — the computed delay is capped at
`max_delay` and never exceeds it. -/
theorem reconnect_delay_neq_claimed :
    reconnect_delay 60 50 20 ≠ min (60 : ℚ) 50 + 20
      ∧ (0 : ℚ) ≤ 20 ∧ (20 : ℚ) ≤ 50
      ∧ reconnect_delay 60 50 20 = 60 := by
  refine ⟨?_, by norm_num, by norm_num, ?_⟩ <;> rw [reconnect_delay] <;> norm_num

/-! ## Window-floor arithmetic -/

/-- For a positive `window_minutes` and a real minute field (`< 60`),
`_floor_window` succeeds and returns the calendar point with the minute
floored to a multiple of `w` and seconds/microseconds zeroed. -/
theorem floor_window_of_pos (w : Int) (t : PyTime) (hw : 0 < w)
    (hmin : t.minute < 60) :
    floor_window w t = .ok ⟨t.base, (((t.minute : Int).fdiv w) * w).toNat, 0, 0⟩ := by
  have hw0 : w ≠ 0 := ne_of_gt hw
  have hfd : (t.minute : Int).fdiv w = (t.minute : Int) / w :=
    Int.fdiv_eq_ediv _ (le_of_lt hw)
  have hq0 : 0 ≤ (t.minute : Int) / w := Int.ediv_nonneg (Int.natCast_nonneg _) (le_of_lt hw)
  have hdm : (t.minute : Int) / w * w + (t.minute : Int) % w = (t.minute : Int) := by
    rw [mul_comm]; exact Int.ediv_add_emod _ _
  have hr0 : 0 ≤ (t.minute : Int) % w := Int.emod_nonneg _ hw0
  have hm60 : (t.minute : Int) < 60 := by exact_mod_cast hmin
  have h0 : 0 ≤ (t.minute : Int) / w * w := mul_nonneg hq0 (le_of_lt hw)
  have hlt60 : (t.minute : Int) / w * w < 60 := by linarith
  simp only [floor_window, hw0, if_false, hfd]
  rw [if_pos ⟨h0, hlt60⟩]

/-- C6: For all `windowMinutes > 0` and all UTC timestamps `t` (minute and
second fields below 60, microseconds below 10⁶), `_floor_window` succeeds,
`FloorWindow(t) ≤ t < FloorWindow(t) + windowMinutes·60 s`, and `FloorWindow`
is idempotent: flooring the floored value returns it unchanged. -/
theorem floor_window_bounds_and_idem (w : Int) (t : PyTime) (hw : 0 < w)
    (hmin : t.minute < 60) (hsec : t.second < 60) (hmic : t.micro < 1000000) :
    ∃ ft : PyTime, floor_window w t = .ok ft
      ∧ ft.toMicros ≤ t.toMicros
      ∧ t.toMicros < ft.toMicros + w * 60000000
      ∧ floor_window w ft = .ok ft := by
  have hw0 : w ≠ 0 := ne_of_gt hw
  have hfd : (t.minute : Int).fdiv w = (t.minute : Int) / w :=
    Int.fdiv_eq_ediv _ (le_of_lt hw)
  have hq0 : 0 ≤ (t.minute : Int) / w := Int.ediv_nonneg (Int.natCast_nonneg _) (le_of_lt hw)
  have hdm : (t.minute : Int) / w * w + (t.minute : Int) % w = (t.minute : Int) := by
    rw [mul_comm]; exact Int.ediv_add_emod _ _
  have hr0 : 0 ≤ (t.minute : Int) % w := Int.emod_nonneg _ hw0
  have hrw : (t.minute : Int) % w < w := Int.emod_lt_of_pos _ hw
  have hm60 : (t.minute : Int) < 60 := by exact_mod_cast hmin
  have h0 : 0 ≤ (t.minute : Int) / w * w := mul_nonneg hq0 (le_of_lt hw)
  have hle : (t.minute : Int) / w * w ≤ (t.minute : Int) := by linarith
  have hlt60 : (t.minute : Int) / w * w < 60 := by linarith
  refine ⟨⟨t.base, (((t.minute : Int).fdiv w) * w).toNat, 0, 0⟩,
    floor_window_of_pos w t hw hmin, ?_, ?_, ?_⟩
  · -- `FloorWindow(t) ≤ t`
    simp only [PyTime.toMicros, hfd]
    rw [Int.toNat_of_nonneg h0]
    have hsec0 : (0 : Int) ≤ (t.second : Int) := Int.natCast_nonneg _
    have hmic0 : (0 : Int) ≤ (t.micro : Int) := Int.natCast_nonneg _
    push_cast
    linarith
  · -- `t < FloorWindow(t) + w·60 s`
    simp only [PyTime.toMicros, hfd]
    rw [Int.toNat_of_nonneg h0]
    have hsec' : (t.second : Int) < 60 := by exact_mod_cast hsec
    have hmic' : (t.micro : Int) < 1000000 := by exact_mod_cast hmic
    push_cast
    linarith
  · -- idempotence
    have h60 : (((t.minute : Int).fdiv w) * w) < 60 := by rw [hfd]; exact hlt60
    have h0' : 0 ≤ (((t.minute : Int).fdiv w) * w) := by rw [hfd]; exact h0
    have hmin' : (((t.minute : Int).fdiv w) * w).toNat < 60 := by omega
    rw [floor_window_of_pos w _ hw hmin']
    have hfix : ((((((t.minute : Int).fdiv w) * w).toNat : Nat) : Int)).fdiv w * w
        = ((t.minute : Int).fdiv w) * w := by
      rw [Int.toNat_of_nonneg h0', hfd, Int.fdiv_eq_ediv _ (le_of_lt hw),
        Int.mul_ediv_cancel _ hw0]
    simp only [hfix]

/-- Witness for C6, at `windowMinutes = 30` and `t = hour index 100, 47:13.000005`. -/
theorem floor_window_bounds_and_idem_witness :
    (0 : Int) < 30 ∧ (⟨100, 47, 13, 5⟩ : PyTime).minute < 60
      ∧ (⟨100, 47, 13, 5⟩ : PyTime).second < 60
      ∧ (⟨100, 47, 13, 5⟩ : PyTime).micro < 1000000
      ∧ ∃ ft : PyTime, floor_window 30 ⟨100, 47, 13, 5⟩ = .ok ft
          ∧ ft.toMicros ≤ (⟨100, 47, 13, 5⟩ : PyTime).toMicros
          ∧ (⟨100, 47, 13, 5⟩ : PyTime).toMicros < ft.toMicros + 30 * 60000000
          ∧ floor_window 30 ft = .ok ft :=
  ⟨by norm_num, by norm_num, by norm_num, by norm_num,
    floor_window_bounds_and_idem 30 ⟨100, 47, 13, 5⟩ (by norm_num) (by norm_num)
      (by norm_num) (by norm_num)⟩

/-- C7 (amended): Constructing a writer never fails on the value of
`windowMinutes` — `__init__` performs no validation, so the `windowMinutes ≤ 0`
error is deferred to the write path rather than raised at construction: with
`windowMinutes = 0` every `write_line` on a fresh writer raises
`ZeroDivisionError` from `_floor_window`; and for every `windowMinutes > 0`
the window computation itself has no failure modes per call. -/
theorem init_no_validation_error_deferred :
    (∀ (w : Int) (maxBytes : Nat) (u : Bool), (init_writer w maxBytes u).isOk = true)
      ∧ (∀ (env : FsEnv) (t : PyTime) (n maxBytes : Nat) (u : Bool),
          (write_line env t n (init_state 0 maxBytes u)).2.2 = some PyErr.zeroDivisionError)
      ∧ (∀ (w : Int) (t : PyTime), 0 < w → t.minute < 60 →
          (floor_window w t).isOk = true) := by
  refine ⟨fun w maxBytes u => rfl, fun env t n maxBytes u => ?_, fun w t hw hmin => ?_⟩
  · simp [write_line, should_rotate, init_state, finalize_current,
      start_new_window, window_bounds, floor_window]
  · rw [floor_window_of_pos w t hw hmin]
    rfl

/-- Witness for C7 (amended): construction succeeds at `windowMinutes = 30`
and at `windowMinutes = 0`; with `windowMinutes = 0` the first write raises
`ZeroDivisionError`; with `windowMinutes = 30` the floor computation
succeeds. -/
theorem init_no_validation_error_deferred_witness :
    (init_writer 30 512000000 true).isOk = true
      ∧ (init_writer 0 512000000 true).isOk = true
      ∧ (write_line envAllOk ⟨9, 3, 0, 0⟩ 4 (init_state 0 512000000 true)).2.2
          = some PyErr.zeroDivisionError
      ∧ (0 : Int) < 30 ∧ (⟨9, 3, 0, 0⟩ : PyTime).minute < 60
      ∧ (floor_window 30 ⟨9, 3, 0, 0⟩).isOk = true :=
  ⟨init_no_validation_error_deferred.1 30 512000000 true,
    init_no_validation_error_deferred.1 0 512000000 true,
    init_no_validation_error_deferred.2.1 envAllOk ⟨9, 3, 0, 0⟩ 4 512000000 true,
    by norm_num, by norm_num,
    init_no_validation_error_deferred.2.2 30 ⟨9, 3, 0, 0⟩ (by norm_num) (by norm_num)⟩

/-- C4 (amended): On a connection-level error with current backoff `b`,
base delay `d` and max delay `D`, the computed wait delay equals
`min(D, b + j)` for a jitter `j` drawn uniformly from `[0, b]` — so the
delay never exceeds `D` — and the backoff is then updated to
`min(D, max(d, 2·b))`, which equals `2·b` capped at `D` whenever
`0 ≤ d ≤ b` (always the case, since the backoff starts at `d` and never
decreases below it). -/
theorem reconnect_backoff_amended (D d b j : ℚ)
    (hd : 0 ≤ d) (hdb : d ≤ b) (hj0 : 0 ≤ j) (hjb : j ≤ b) :
    reconnect_delay D b j = min D (b + j)
      ∧ reconnect_delay D b j ≤ D
      ∧ reconnect_next_backoff d D b = min D (b * 2) := by
  refine ⟨rfl, min_le_left _ _, ?_⟩
  rw [reconnect_next_backoff, max_eq_right (by linarith)]

/-- Witness for C4 (amended) at `D = 60`, `d = 1`, `b = 1`, `j = 1/2`. -/
theorem reconnect_backoff_amended_witness :
    ((0 : ℚ) ≤ 1 ∧ (1 : ℚ) ≤ 1 ∧ (0 : ℚ) ≤ 1/2 ∧ (1/2 : ℚ) ≤ 1)
      ∧ reconnect_delay 60 1 (1/2) = min 60 (1 + 1/2)
      ∧ reconnect_delay 60 1 (1/2) ≤ 60
      ∧ reconnect_next_backoff 1 60 1 = min 60 (1 * 2) :=
  ⟨⟨by norm_num, by norm_num, by norm_num, by norm_num⟩,
    reconnect_backoff_amended 60 1 1 (1/2) (by norm_num) (by norm_num)
      (by norm_num) (by norm_num)⟩

/-- C3 (amended): Writing past `max_object_bytes` inside the open window
finalizes the first object and opens a second one with the NEXT sequence
number (the process-lifetime counter increments by exactly one, never
resetting per window), and the first object's close and marker removal
strictly precede the second object's marker creation in the event trace.
The two objects share the partition path PROVIDED the wall-clock floor of
the rotation time equals the open window's start (`hfloor`) — which is
guaranteed whenever `windowMinutes` divides 60, but can fail for window
sizes that do not divide the hour (see the counterexample at
`windowMinutes = 45`). -/
theorem size_rotation_same_window_amended
    (s : WriterState) (now : PyTime) (n : Nat) (st en : PyTime) (pp : PartPath)
    (hst : s.curStart = some st) (hen : s.curEnd = some en)
    (hfloor : floor_window s.windowMinutes now = .ok st)
    (hend : en = st.addMicros (s.windowMinutes * 60000000 - 1000000))
    (hpp : pp = prefix_for_window st en)
    (hfile : s.fileObj = some ⟨pp, s.seqCounter⟩)
    (hmk : s.useMarker = true) (hmark : s.markers = [pp])
    (hsize : s.maxObjectBytes ≤ s.bytesWritten)
    (hinwin : now.toMicros ≤ en.toMicros) :
    write_line envAllOk now n s
      = ({ s with
            seqCounter := s.seqCounter + 1
            curStart := some st
            curEnd := some en
            fileObj := some ⟨pp, s.seqCounter + 1⟩
            markers := [pp]
            bytesWritten := n },
          [Ev.fileClosed ⟨pp, s.seqCounter⟩, Ev.markerRemoved pp,
            Ev.markerCreated pp, Ev.fileOpened ⟨pp, s.seqCounter + 1⟩,
            Ev.wrote ⟨pp, s.seqCounter + 1⟩ n], none) := by
  have hnotlate : ¬ (en.toMicros < now.toMicros) := not_lt.mpr hinwin
  simp [write_line, should_rotate, finalize_current, start_new_window,
    window_bounds, hst, hen, hfloor, hend, hpp, hfile, hmk, hmark,
    hnotlate, hsize, envAllOk]

/-- Window start 10:00 (hour index 10). -/
def exSt : PyTime := ⟨10, 0, 0, 0⟩

/-- Window end 10:29:59 for a 30-minute window starting at `exSt`. -/
def exEn : PyTime := PyTime.addMicros ⟨10, 0, 0, 0⟩ (30 * 60000000 - 1000000)

/-- The partition path of the window `exSt–exEn`. -/
def exPp : PartPath := prefix_for_window exSt exEn

/-- A writer mid-window: object 1 open in `exSt–exEn`, marker present,
`bytes_written = 7` at `max_object_bytes = 7` (size rotation due). -/
def exSizeState : WriterState :=
  { windowMinutes := 30, maxObjectBytes := 7, useMarker := true, seqCounter := 1
    curStart := some exSt, curEnd := some exEn, fileObj := some ⟨exPp, 1⟩
    bytesWritten := 7, markers := [exPp] }

/-- Witness for C3 (amended): a 4-byte write at 10:20 on `exSizeState`
size-rotates into the same partition path with sequence number 2, the
close and marker removal of object 1 preceding the marker creation of
object 2. -/
theorem size_rotation_same_window_amended_witness :
    exSizeState.curStart = some exSt
      ∧ exSizeState.curEnd = some exEn
      ∧ floor_window exSizeState.windowMinutes ⟨10, 20, 0, 0⟩ = .ok exSt
      ∧ exEn = exSt.addMicros (exSizeState.windowMinutes * 60000000 - 1000000)
      ∧ exPp = prefix_for_window exSt exEn
      ∧ exSizeState.fileObj = some ⟨exPp, exSizeState.seqCounter⟩
      ∧ exSizeState.useMarker = true
      ∧ exSizeState.markers = [exPp]
      ∧ exSizeState.maxObjectBytes ≤ exSizeState.bytesWritten
      ∧ (⟨10, 20, 0, 0⟩ : PyTime).toMicros ≤ exEn.toMicros
      ∧ write_line envAllOk ⟨10, 20, 0, 0⟩ 4 exSizeState
          = ({ exSizeState with
                seqCounter := exSizeState.seqCounter + 1
                curStart := some exSt
                curEnd := some exEn
                fileObj := some ⟨exPp, exSizeState.seqCounter + 1⟩
                markers := [exPp]
                bytesWritten := 4 },
              [Ev.fileClosed ⟨exPp, exSizeState.seqCounter⟩, Ev.markerRemoved exPp,
                Ev.markerCreated exPp, Ev.fileOpened ⟨exPp, exSizeState.seqCounter + 1⟩,
                Ev.wrote ⟨exPp, exSizeState.seqCounter + 1⟩ 4], none) :=
  ⟨rfl, rfl, by decide, by decide, rfl, rfl, rfl, rfl, by decide, by decide,
    size_rotation_same_window_amended exSizeState ⟨10, 20, 0, 0⟩ 4 exSt exEn exPp
      rfl rfl (by decide) (by decide) rfl rfl rfl rfl (by decide) (by decide)⟩

/-- C10: If creating the `uploading.marker` file fails while opening a new
object (`use_marker` enabled), the failure is logged and swallowed: the
output object is still opened for append, `bytes_written` is still reset to
zero (then incremented by the written line), and subsequent `write_line`
calls inside the window succeed without the marker ever existing for that
partition. -/
theorem marker_create_failure_swallowed
    (w : Int) (maxBytes : Nat) (now : PyTime) (n : Nat) (env : FsEnv)
    (hw : 0 < w) (hmin : now.minute < 60) (henv : env.markerCreateOk = false) :
    ∃ (s1 : WriterState) (p : ObjPath) (pp : PartPath),
      write_line env now n (init_state w maxBytes true)
          = (s1, [Ev.markerCreateFailed pp, Ev.fileOpened p, Ev.wrote p n], none)
        ∧ s1.fileObj = some p ∧ s1.markers = [] ∧ s1.bytesWritten = n
        ∧ ∀ (env2 : FsEnv) (now2 : PyTime) (n2 : Nat),
            (∀ e, s1.curEnd = some e → now2.toMicros ≤ e.toMicros) →
            n < maxBytes →
            ∃ s2, write_line env2 now2 n2 s1 = (s2, [Ev.wrote p n2], none)
              ∧ s2.markers = [] := by
  have hfl := floor_window_of_pos w now hw hmin
  set st : PyTime := ⟨now.base, (((now.minute : Int).fdiv w) * w).toNat, 0, 0⟩ with hst
  set en : PyTime := st.addMicros (w * 60000000 - 1000000) with hen
  set pp : PartPath := prefix_for_window st en with hpp
  refine ⟨{ windowMinutes := w, maxObjectBytes := maxBytes, useMarker := true
            seqCounter := 1, curStart := some st, curEnd := some en
            fileObj := some ⟨pp, 1⟩, bytesWritten := n, markers := [] },
    ⟨pp, 1⟩, pp, ?_, rfl, rfl, rfl, ?_⟩
  · simp [write_line, should_rotate, init_state, finalize_current,
      start_new_window, window_bounds, hfl, henv]
  · intro env2 now2 n2 hinwin hlt
    have h1 : ¬ (en.toMicros < now2.toMicros) := not_lt.mpr (hinwin en rfl)
    have h2 : ¬ (maxBytes ≤ n) := Nat.not_le.mpr hlt
    refine ⟨{ windowMinutes := w, maxObjectBytes := maxBytes, useMarker := true
              seqCounter := 1, curStart := some st, curEnd := some en
              fileObj := some ⟨pp, 1⟩, bytesWritten := n + n2, markers := [] }, ?_, rfl⟩
    simp [write_line, should_rotate, h1, h2]

/-- Witness for C10 at `windowMinutes = 30`, `max_object_bytes = 10`,
first write of 3 bytes at 10:05 with marker creation failing, second write
of 4 bytes at 10:06. -/
theorem marker_create_failure_swallowed_witness :
    (0 : Int) < 30 ∧ (⟨10, 5, 0, 0⟩ : PyTime).minute < 60
      ∧ envMarkerCreateFail.markerCreateOk = false
      ∧ ∃ (s1 : WriterState) (p : ObjPath) (pp : PartPath),
          write_line envMarkerCreateFail ⟨10, 5, 0, 0⟩ 3 (init_state 30 10 true)
              = (s1, [Ev.markerCreateFailed pp, Ev.fileOpened p, Ev.wrote p 3], none)
            ∧ s1.fileObj = some p ∧ s1.markers = [] ∧ s1.bytesWritten = 3
            ∧ ∀ (env2 : FsEnv) (now2 : PyTime) (n2 : Nat),
                (∀ e, s1.curEnd = some e → now2.toMicros ≤ e.toMicros) →
                3 < 10 →
                ∃ s2, write_line env2 now2 n2 s1 = (s2, [Ev.wrote p n2], none)
                  ∧ s2.markers = [] :=
  ⟨by norm_num, by norm_num, rfl,
    marker_create_failure_swallowed 30 10 ⟨10, 5, 0, 0⟩ 3 envMarkerCreateFail
      (by norm_num) (by norm_num) rfl⟩

/-! ## C5: one output record per extractable ticker -/

/-- C5 (supporting theorem, see the call-arity defect in `ws_client`):
`extract_all_outputs` produces exactly one output record per securities
entry from which a ticker can be extracted — zero extractable tickers
yield zero records — every record carries the same single summary string
as its `content`; and the consumer's empty-records guard (source lines
64–69, unreachable in the shipped program because the extraction call
raises first), given zero records, only logs and skips the frame, making
no `write_line` call at all. -/
theorem extract_outputs_one_per_ticker (msg : StreamMessage) (summary : String) :
    (extract_all_outputs msg summary).length
        = (msg.data.content.securities.filterMap extract_symbol).length
      ∧ (∀ r ∈ extract_all_outputs msg summary, r.content = some summary)
      ∧ ignore_or_write [] = [CEv.ignoredEmpty] := by
  refine ⟨by simp [extract_all_outputs], ?_, rfl⟩
  intro r hr
  simp only [extract_all_outputs] at hr
  obtain ⟨tk, _, rfl⟩ := List.mem_map.mp hr
  rfl

/-- A concrete inbound message: five securities entries, two of which have
an extractable ticker (`TSLA` as a dict entry and `AAPL` as an object
attribute); a dict without a symbol, a dict with a non-string symbol and
an unrecognised value yield none. -/
def exMsg : StreamMessage :=
  { apiVersion := some "websocket/v1", kind := some "News/v1"
    data := { action := some "Created", id := 123456, timestamp := ⟨10, 5, 0, 0⟩
              content := { title := some "T", body := some "B", teaser := none
                           authors := ["A"], url := none, channels := ["News"]
                           securities := [SecEntry.dict (some (.s "TSLA")),
                             SecEntry.objWithSymbol (some (.s "AAPL")),
                             SecEntry.dict none, SecEntry.dict (some .nonString),
                             SecEntry.other]
                           createdAt := none, updatedAt := none } } }

/-- Witness for C5 at `exMsg`: two extractable tickers, two records, both
carrying the one summary; an empty record list yields only the ignore log. -/
theorem extract_outputs_one_per_ticker_witness :
    (extract_all_outputs exMsg "sum").length
        = (exMsg.data.content.securities.filterMap extract_symbol).length
      ∧ (∀ r ∈ extract_all_outputs exMsg "sum", r.content = some "sum")
      ∧ ignore_or_write [] = [CEv.ignoredEmpty]
      ∧ (extract_all_outputs exMsg "sum").length = 2 :=
  ⟨(extract_outputs_one_per_ticker exMsg "sum").1,
    (extract_outputs_one_per_ticker exMsg "sum").2.1,
    (extract_outputs_one_per_ticker exMsg "sum").2.2,
    by decide⟩

/-! ## C8: failure handling in the read loop -/

/-- The log-and-skip event a frame failing decode or validation
contributes. -/
def skip_event (f : FrameEnv) : CEv :=
  if f.decodeOk = false then CEv.skippedDecode else CEv.skippedValidation

/-- A frame failing JSON decode or schema validation is logged, skipped,
and the loop moves on to the rest of the stream. -/
theorem consume_messages_cons_bad (f : FrameEnv) (rest : List FrameEnv)
    (h : f.decodeOk = false ∨ f.validateOk = false) :
    consume_messages (f :: rest)
      = (skip_event f :: (consume_messages rest).1, (consume_messages rest).2) := by
  by_cases hd : f.decodeOk = false
  · simp [consume_messages, process_frame, skip_event, hd]
  · have hd' : f.decodeOk = true := by simpa using hd
    have hv : f.validateOk = false := by
      rcases h with h | h
      · exact absurd h hd
      · exact h
    simp [consume_messages, process_frame, skip_event, hd', hv]

/-- A schema-valid frame reaches the broken extraction call and the loop
ends with its `TypeError`; nothing after it is processed. -/
theorem consume_messages_cons_valid (f : FrameEnv) (rest : List FrameEnv)
    (h1 : f.decodeOk = true) (h2 : f.validateOk = true) :
    consume_messages (f :: rest) = ([], some PyErr.typeError) := by
  simp [consume_messages, process_frame, h1, h2]

/-- C8: the claim holds for decode and validation failures — each such
frame contributes exactly its skip event and the loop continues through
the whole stream (first conjunct) — and the per-record write guard of
source lines 72–78, taken on its own, drops exactly a failing record and
continues with the next (third conjunct); but the claim FAILS on the
shipped program for the write path: every frame that passes validation
raises `TypeError` at the unguarded 3-argument `extract_all_outputs` call
(line 63), terminating the read loop before any `write_line` and leaving
every later frame unprocessed (second conjunct, the failing input). -/
theorem consume_typeerror_kills_loop :
    (∀ fs : List FrameEnv,
        (∀ f ∈ fs, f.decodeOk = false ∨ f.validateOk = false) →
        consume_messages fs = (fs.map skip_event, none))
      ∧ (∀ (pre post : List FrameEnv) (f : FrameEnv),
          (∀ g ∈ pre, g.decodeOk = false ∨ g.validateOk = false) →
          f.decodeOk = true → f.validateOk = true →
          consume_messages (pre ++ f :: post)
            = (pre.map skip_event, some PyErr.typeError))
      ∧ (∀ (r : OutputRecord) (b : Bool) (rest : List (OutputRecord × Bool)),
          write_records ((r, b) :: rest)
            = (if b then CEv.writeFailed r else CEv.wroteRecord r)
                :: write_records rest) := by
  refine ⟨?_, ?_, ?_⟩
  · intro fs h
    induction fs with
    | nil => rfl
    | cons g rest ih =>
      rw [consume_messages_cons_bad g rest (h g (by simp)),
        ih (fun x hx => h x (by simp [hx]))]
      simp
  · intro pre post f hpre h1 h2
    induction pre with
    | nil => simpa using consume_messages_cons_valid f post h1 h2
    | cons g rest ih =>
      rw [List.cons_append, consume_messages_cons_bad g _ (hpre g (by simp)),
        ih (fun x hx => hpre x (by simp [hx]))]
      simp
  · intro r b rest
    rfl

/-- A minimal output record for concrete consumer runs. -/
def exRec : OutputRecord :=
  { timestamp := 0, ticker := "T", newsId := 1, action := "Created", title := none
    content := none, authors := [], url := none, channels := [], createdAt := none
    updatedAt := none }

/-- Witness for C8: two bad frames are both skipped and the loop survives
them; a stream with a bad frame, then a valid frame, then another frame
ends at the valid frame with `TypeError`, the last frame unprocessed; and
the (unreachable) write guard drops a failing record and continues. -/
theorem consume_typeerror_kills_loop_witness :
    (∀ f ∈ ([⟨false, true⟩, ⟨true, false⟩] : List FrameEnv),
        f.decodeOk = false ∨ f.validateOk = false)
      ∧ consume_messages [⟨false, true⟩, ⟨true, false⟩]
          = ([CEv.skippedDecode, CEv.skippedValidation], none)
      ∧ consume_messages ([⟨false, true⟩] ++ (⟨true, true⟩ : FrameEnv) :: [⟨true, true⟩])
          = ([CEv.skippedDecode], some PyErr.typeError)
      ∧ write_records ((exRec, true) :: [({ exRec with ticker := "U" }, false)])
          = CEv.writeFailed exRec :: write_records [({ exRec with ticker := "U" }, false)] :=
  ⟨by decide,
    by simpa [skip_event] using
      consume_typeerror_kills_loop.1 [⟨false, true⟩, ⟨true, false⟩] (by decide),
    by simpa [skip_event] using
      consume_typeerror_kills_loop.2.1 [⟨false, true⟩] [⟨true, true⟩] ⟨true, true⟩
        (by decide) rfl rfl,
    by simpa using
      consume_typeerror_kills_loop.2.2 exRec true [({ exRec with ticker := "U" }, false)]⟩

/-! ## C9: summarizer retry contract -/

/-- If the (single possible) fallback invocation returns rather than
raises, `_invoke_with_retry` returns on every endpoint behaviour — no
exception escapes any other path of the loop. -/
theorem invoke_attempts_ret_of_fallback_ok (env : BedrockEnv) (n : Nat)
    (o : Option String) (hfb : env.fallback = .ok o) :
    ∀ fuel attempt, ∃ r, (invoke_attempts env n attempt fuel).1 = BOutcome.ret r := by
  intro fuel
  induction fuel with
  | zero => exact fun attempt => ⟨none, rfl⟩
  | succ k ih =>
    intro attempt
    cases hp : env.primary attempt with
    | ok s =>
      by_cases hs : s.isSome
      · exact ⟨s, by simp [invoke_attempts, hp, hs]⟩
      · simpa [invoke_attempts, hp, hs] using ih (attempt + 1)
    | clientError c m =>
      by_cases hcond : (!(is_retryable_code c) || decide (attempt = n - 1)) = true
      · by_cases hval : (decide (c = "ValidationException")
            && str_contains m "on-demand throughput") = true
        · exact ⟨o, by simp [invoke_attempts, hp, hcond, hval, fallback_result, hfb]⟩
        · exact ⟨none, by simp [invoke_attempts, hp, hcond, hval]⟩
      · obtain ⟨r, hr⟩ := ih (attempt + 1)
        exact ⟨r, by simp [invoke_attempts, hp, hcond, hr]⟩
    | exn =>
      by_cases hlast : attempt = n - 1
      · subst hlast
        exact ⟨none, by simp [invoke_attempts, hp]⟩
      · obtain ⟨r, hr⟩ := ih (attempt + 1)
        exact ⟨r, by simp [invoke_attempts, hp, hlast, hr]⟩

/-- When every primary attempt is throttled, the loop sleeps `2^attempt`
before each retry and returns `None` at the attempt ceiling. -/
theorem invoke_attempts_all_throttle (env : BedrockEnv) (n : Nat) (msg : String)
    (hp : ∀ a, env.primary a = .clientError "ThrottlingException" msg) :
    ∀ fuel attempt, attempt + fuel = n →
      invoke_attempts env n attempt fuel
        = (.ret none, (List.range' attempt (fuel - 1)).map (fun a => 2 ^ a)) := by
  have hThr : is_retryable_code "ThrottlingException" = true := by decide
  have hstr : ¬ ("ThrottlingException" = "ValidationException") := by decide
  intro fuel
  induction fuel with
  | zero => intro attempt h; simp [invoke_attempts]
  | succ k ih =>
    intro attempt h
    rcases Nat.eq_zero_or_pos k with hk | hk
    · subst hk
      have hlast : attempt = n - 1 := by omega
      subst hlast
      simp [invoke_attempts, hp, hThr, hstr]
    · have hnot : ¬ attempt = n - 1 := by omega
      have hrest := ih (attempt + 1) (by omega)
      have hstep : invoke_attempts env n attempt (k + 1)
          = ((invoke_attempts env n (attempt + 1) k).1,
              2 ^ attempt :: (invoke_attempts env n (attempt + 1) k).2) := by
        simp [invoke_attempts, hp, hThr, hnot]
      have hlist : (List.range' attempt (k + 1 - 1)).map (fun a => (2 : Nat) ^ a)
          = 2 ^ attempt :: (List.range' (attempt + 1) (k - 1)).map (fun a => 2 ^ a) := by
        obtain ⟨j, rfl⟩ : ∃ j, k = j + 1 := ⟨k - 1, by omega⟩
        rw [Nat.add_sub_cancel, List.range'_succ]
        simp
      rw [hstep, hrest, hlist]

/-- C9 (amended): the summarizer retries the retryable failure classes
(rate-limit/unavailable) with exponential backoff (`2^attempt` sleeps) up to
the configured attempt ceiling, returning `None` on exhaustion (third
conjunct); on a "model unavailable" `ValidationException` it falls back
exactly once — the call's outcome is exactly the single fallback
invocation's outcome — before giving up (second conjunct); and no exception
propagates to the caller from any path other than that one fallback
invocation: whenever the fallback invocation returns, the whole call
returns (first conjunct).  (An exception raised by the fallback invocation
itself DOES propagate — see the counterexample.) -/
theorem summarizer_retry_contract (env : BedrockEnv) (n : Nat) :
    (∀ o : Option String, env.fallback = .ok o →
        ∃ r, (invoke_with_retry env n).1 = BOutcome.ret r)
      ∧ (∀ msg : String, 1 ≤ n →
          env.primary 0 = .clientError "ValidationException" msg →
          str_contains msg "on-demand throughput" = true →
          invoke_with_retry env n = fallback_result env)
      ∧ (∀ msg : String,
          (∀ a, env.primary a = .clientError "ThrottlingException" msg) →
          invoke_with_retry env n
            = (.ret none, (List.range' 0 (n - 1)).map (fun a => 2 ^ a))) := by
  refine ⟨?_, ?_, ?_⟩
  · intro o hfb
    exact invoke_attempts_ret_of_fallback_ok env n o hfb n 0
  · intro msg hn hp0 hmsg
    obtain ⟨k, rfl⟩ : ∃ k, n = k + 1 := ⟨n - 1, by omega⟩
    have hval : is_retryable_code "ValidationException" = false := by decide
    simp [invoke_with_retry, invoke_attempts, hp0, hval, hmsg]
  · intro msg hp
    exact invoke_attempts_all_throttle env n msg hp n 0 (by omega)

/-- Endpoint behaviour refuting the no-propagation part of C9: the primary
model is unavailable on demand, and the fallback invocation itself raises a
`ClientError`. -/
def envModelUnavailable : BedrockEnv :=
  { primary := fun _ => .clientError "ValidationException" "on-demand throughput"
    fallback := .clientError "ThrottlingException" "throttled" }

/-- C9 counterexample: with `max_retries = 3`, when the fallback invocation
raises, `_invoke_with_retry` propagates that exception to its caller
instead of returning `None` — the `return self._invoke_bedrock_with_model(...)`
inside the `except ClientError` handler is not guarded by anything. -/
theorem summarizer_fallback_raise_propagates :
    (invoke_with_retry envModelUnavailable 3).1
        = BOutcome.raisedClientError "ThrottlingException" "throttled"
      ∧ (invoke_with_retry envModelUnavailable 3).1 ≠ BOutcome.ret none := by
  decide

/-- Endpoint behaviour: every primary attempt throttled, fallback unused. -/
def envThrottleAlways : BedrockEnv :=
  { primary := fun _ => .clientError "ThrottlingException" "slow down"
    fallback := .ok none }

/-- Endpoint behaviour: the primary always raises a non-`ClientError`
exception; the fallback would return a summary (it is never reached on
this path — the first conjunct of the contract only needs it benign). -/
def envFallbackOk : BedrockEnv :=
  { primary := fun _ => .exn, fallback := .ok (some "s") }

/-- Witness for C9 (amended): the three conjuncts of the contract applied
at concrete endpoint behaviours and `max_retries = 2` resp. `3`. -/
theorem summarizer_retry_contract_witness :
    (envFallbackOk.fallback = .ok (some "s")
        ∧ ∃ r, (invoke_with_retry envFallbackOk 2).1 = BOutcome.ret r)
      ∧ ((1 : Nat) ≤ 3
        ∧ envModelUnavailable.primary 0
            = .clientError "ValidationException" "on-demand throughput"
        ∧ str_contains "on-demand throughput" "on-demand throughput" = true
        ∧ invoke_with_retry envModelUnavailable 3 = fallback_result envModelUnavailable)
      ∧ ((∀ a, envThrottleAlways.primary a
            = .clientError "ThrottlingException" "slow down")
        ∧ invoke_with_retry envThrottleAlways 3
            = (.ret none, (List.range' 0 2).map (fun a => 2 ^ a))) :=
  ⟨⟨rfl, (summarizer_retry_contract envFallbackOk 2).1 (some "s") rfl⟩,
    ⟨by norm_num, rfl, by decide,
      (summarizer_retry_contract envModelUnavailable 3).2.1 "on-demand throughput"
        (by norm_num) rfl (by decide)⟩,
    ⟨fun _ => rfl,
      (summarizer_retry_contract envThrottleAlways 3).2.2 "slow down" (fun _ => rfl)⟩⟩
